import Mathlib

/-
Verification of the dispatch core of the mcp-clickhouse server
(src/mcp_clickhouse/mcp_server.py), as a shallow embedding in Lean 4.

Conventions of the embedding:
- Python values that flow through the tool surface are modelled by `PyVal`
  (JSON-serialisable Python data: str, int, bool, list, dict, None).
- A Python function that can raise is modelled as returning `Except PyExn α`.
- The external collaborators (the clickhouse-connect client, the chdb
  session, `json.loads`) are modelled as oracles: record fields or function
  parameters giving their responses, exactly at the interface the source
  consumes them.
- The thread pool is modelled at its observable boundary:
  `future.result(timeout=N)` is an oracle `Nat → PoolOutcome α` mapping the
  timeout argument to the outcome the wait produced (the worker's return
  value, the worker's raised exception, or `concurrent.futures.TimeoutError`).
-/

namespace McpClickhouse

/-- Model of the JSON-serialisable fragment of Python values that the server
passes around (query payloads, error payloads, parsed JSON). -/
inductive PyVal where
  | str (s : String)
  | int (n : Int)
  | bool (b : Bool)
  | list (xs : List PyVal)
  | dict (entries : List (String × PyVal))
  | none

/-- The Python type name of a value, as reported in `AttributeError` messages. -/
def PyVal.pyTypeName : PyVal → String
  | .str _ => "str"
  | .int _ => "int"
  | .bool _ => "bool"
  | .list _ => "list"
  | .dict _ => "dict"
  | .none => "NoneType"

/-- True exactly when the value is a Python dict (`isinstance(v, dict)`). -/
def pyIsDict : PyVal → Bool
  | .dict _ => true
  | _ => false

/-- First-match lookup in a dict's entry list, like Python dict indexing
(our dicts are built with distinct keys, as Python guarantees). -/
def lookupEntry : List (String × PyVal) → String → Option PyVal
  | [], _ => Option.none
  | (k, x) :: rest, key => if k = key then Option.some x else lookupEntry rest key

/-- Python `key in v` for a dict value (False for non-dicts; the source always
guards this with `isinstance(result, dict)`). -/
def pyDictHasKey (v : PyVal) (k : String) : Bool :=
  match v with
  | .dict es => (lookupEntry es k).isSome
  | _ => false

/-- Python `v.get(k, d)` for a dict value. -/
def pyDictGetD (v : PyVal) (k : String) (d : PyVal) : PyVal :=
  match v with
  | .dict es => (lookupEntry es k).getD d
  | _ => d

mutual
/-- Python `repr` on the modelled values.  `repr` of a string is the string in
quotes; escaping of special characters inside the string is not modelled
(the development only evaluates it on plain identifier-like names). -/
def pyRepr : PyVal → String
  | .str s => "\x27" ++ s ++ "\x27"
  | .int n => toString n
  | .bool b => if b then "True" else "False"
  | .none => "None"
  | .list xs => "[" ++ pyReprSeq xs ++ "]"
  | .dict es => "\x7b" ++ pyReprPairs es ++ "\x7d"

/-- Comma-separated `repr`s of list elements. -/
def pyReprSeq : List PyVal → String
  | [] => ""
  | [x] => pyRepr x
  | x :: y :: rest => pyRepr x ++ ", " ++ pyReprSeq (y :: rest)

/-- Comma-separated `repr`s of dict entries. -/
def pyReprPairs : List (String × PyVal) → String
  | [] => ""
  | [(k, v)] => "\x27" ++ k ++ "\x27: " ++ pyRepr v
  | (k, v) :: p :: rest => "\x27" ++ k ++ "\x27: " ++ pyRepr v ++ ", " ++ pyReprPairs (p :: rest)
end

/-- Python `str` of a value, as used by f-string interpolation:
the string itself for `str`, `repr`-like rendering otherwise. -/
def pyStrOf : PyVal → String
  | .str s => s
  | v => pyRepr v

/-- The exceptions the source raises or catches: `fastmcp.exceptions.ToolError`,
`ValueError`, `RuntimeError`, and a catch-all for any other `Exception`
(identified only by its `str()` message, which is all the source consumes). -/
inductive PyExn where
  | toolError (msg : String)
  | valueError (msg : String)
  | runtimeError (msg : String)
  | otherError (msg : String)
deriving Repr, DecidableEq

/-- Python `str(e)` on an exception: its message. -/
def PyExn.msg : PyExn → String
  | .toolError m => m
  | .valueError m => m
  | .runtimeError m => m
  | .otherError m => m

/-- Outcome of `future.result(timeout=N)` on a work item submitted to the
thread pool: the worker's return value, the worker's raised exception
(re-raised by `result`), or `concurrent.futures.TimeoutError`. -/
inductive PoolOutcome (α : Type) where
  | completed (v : α)
  | raised (e : PyExn)
  | timedOut

/-- The awaited outcome of running a (synchronous, non-hanging) work item to
completion on a worker: a returned value completes, a raised exception is
re-raised by `future.result`. -/
def outcomeOf : Except PyExn α → PoolOutcome α
  | .ok v => .completed v
  | .error e => .raised e

/-- `SELECT_QUERY_TIMEOUT_SECS = 30` (mcp_server.py line 67). -/
def SELECT_QUERY_TIMEOUT_SECS : Nat := 30

/-- `LIST_TABLES_TIMEOUT_SECS = 120`, the local constant in `list_tables`
(mcp_server.py line 259). -/
def LIST_TABLES_TIMEOUT_SECS : Nat := 120

/-- The literal `timeout=10` passed to `future.result` in `health_check`
(mcp_server.py line 108). -/
def HEALTH_CHECK_TIMEOUT_SECS : Nat := 10

/-
Read-only reconciliation (`get_readonly_setting`).

`client.server_settings` in clickhouse-connect maps setting names to
`SettingDef` objects (named tuples with fields `name`, `value`, `readonly`);
the source itself relies on this shape by reading `read_only.value` in its
else branch.  The source's condition `read_only == "0"` therefore compares a
named tuple against a string.
-/

/-- The `SettingDef` named tuple of clickhouse-connect, as the source consumes
it: `value` is the setting's value rendered as a string (the source reads
`read_only.value` and returns it as the effective readonly level). -/
structure SettingDef where
  name : String
  value : String
  readonly : Nat
deriving Repr, DecidableEq

/-- Operands of the Python `==` comparisons the source performs: either a
named-tuple object or a `str`. -/
inductive PyEqOperand where
  | tupleOf (fields : List String)
  | strOf (s : String)
deriving Repr, DecidableEq

/-- CPython `==` on these operands: componentwise for two tuples, string
equality for two strings, and `False` across types — for a named tuple versus
a `str`, both sides' `__eq__` return `NotImplemented` and the interpreter
falls back to identity, which fails. -/
def pyValueEq : PyEqOperand → PyEqOperand → Bool
  | .tupleOf a, .tupleOf b => a == b
  | .strOf a, .strOf b => a == b
  | _, _ => false

/-- A `SettingDef` as an operand of Python `==`: the named tuple of its
rendered fields. -/
def SettingDef.asOperand (s : SettingDef) : PyEqOperand :=
  .tupleOf [s.name, s.value, toString s.readonly]

/-- `get_readonly_setting` (mcp_server.py lines 342-369), over the value of
`client.server_settings.get("readonly")` (`Option.none` models the dict not
containing the key, which `get` maps to Python `None`).  A present
`SettingDef` is truthy (a non-empty named tuple), so the outer branch is
taken; the inner condition is the source's `read_only == "0"`. -/
def get_readonly_setting (readonlySetting : Option SettingDef) : String :=
  match readonlySetting with
  | Option.some read_only =>
      if pyValueEq read_only.asOperand (.strOf "0") then "1"
      else read_only.value
  | Option.none => "1"

/-
The primary backend client (clickhouse-connect), at the interface the source
consumes: `client.server_settings.get("readonly")`, and
`client.query(sql, settings)` which either returns a result set or raises a
backend error.  `create_clickhouse_client` either returns a client or raises;
its outcome is an oracle parameter of the operations that call it.
-/

/-- A result set, as the source consumes it: `column_names` and `result_rows`. -/
structure QueryRes where
  column_names : List String
  result_rows : List (List PyVal)

/-- The clickhouse-connect client at the interface the source consumes.
`runQuery sql ro` models `client.query(sql, settings={"readonly": ro})`:
either a result set, or a raised backend error carrying `str(err)`. -/
structure ClickhouseClient where
  server_readonly : Option SettingDef
  runQuery : String → String → Except String QueryRes

/-- The `{"columns": ..., "rows": ...}` payload `execute_query` builds from a
result set. -/
def queryPayload (res : QueryRes) : PyVal :=
  PyVal.dict
    [("columns", PyVal.list (res.column_names.map PyVal.str)),
     ("rows", PyVal.list (res.result_rows.map PyVal.list))]

/-- `execute_query` (mcp_server.py lines 274-290): create a client (outside
the try block, so a connect failure propagates unwrapped), compute the
readonly setting, run the query with it; a backend error raised by
`client.query` is caught and re-raised as
`ToolError("Query execution failed: <str(err)>")`. -/
def execute_query (connect : Except PyExn ClickhouseClient) (query : String) :
    Except PyExn PyVal :=
  match connect with
  | .error e => .error e
  | .ok client =>
      match client.runQuery query (get_readonly_setting client.server_readonly) with
      | .ok res => .ok (queryPayload res)
      | .error err => .error (.toolError ("Query execution failed: " ++ err))

/-- `run_select_query` (mcp_server.py lines 293-318), over the awaited pool
outcome of the submitted `execute_query` work item.  A completed dict result
carrying an "error" key is wrapped as a structured payload; a timeout raises
a `ToolError`; a raised `ToolError` is re-raised as-is; any other raised
exception is wrapped into a `RuntimeError`. -/
def run_select_query (awaitResult : Nat → PoolOutcome PyVal) : Except PyExn PyVal :=
  match awaitResult SELECT_QUERY_TIMEOUT_SECS with
  | .completed result =>
      if pyIsDict result && pyDictHasKey result "error" then
        .ok (PyVal.dict
          [("status", PyVal.str "error"),
           ("message", PyVal.str
              ("Query failed: " ++ pyStrOf (pyDictGetD result "error" PyVal.none)))])
      else .ok result
  | .timedOut =>
      .error (.toolError
        ("Query timed out after " ++ toString SELECT_QUERY_TIMEOUT_SECS ++ " seconds"))
  | .raised (.toolError m) => .error (.toolError m)
  | .raised e =>
      .error (.runtimeError ("Unexpected error during query execution: " ++ e.msg))

/-
The `list_databases` pipeline: Python string primitives (`strip`,
`split("\n")`), `json.dumps`, and the two functions of the source.
-/

/-- The whitespace characters `str.strip()` removes (the ASCII ones; the
Unicode whitespace code points play no role in this development). -/
def isPySpace (c : Char) : Bool :=
  c == ' ' || c == '\t' || c == '\n' || c == '\x0d' || c == '\x0b' || c == '\x0c'

/-- Python `s.strip()`: drop whitespace from both ends. -/
def pyStrip (s : String) : String :=
  String.mk (((s.toList.dropWhile isPySpace).reverse.dropWhile isPySpace).reverse)

/-- Helper for `splitOnNewline`: `acc` holds the current piece reversed. -/
def splitOnNewlineAux (acc : List Char) : List Char → List String
  | [] => [String.mk acc.reverse]
  | c :: rest =>
      if c = '\n' then String.mk acc.reverse :: splitOnNewlineAux [] rest
      else splitOnNewlineAux (c :: acc) rest

/-- Python `s.split("\n")`: pieces between newline separators, keeping empty
pieces (so `"".split("\n") == [""]` and `"a\n".split("\n") == ["a", ""]`). -/
def splitOnNewline (s : String) : List String :=
  splitOnNewlineAux [] s.toList

/-- One hexadecimal digit. -/
def hexDigit (n : Nat) : Char :=
  if n < 10 then Char.ofNat (48 + n) else Char.ofNat (87 + (n % 16))

/-- Four-digit lowercase hexadecimal rendering, as in JSON `\uXXXX` escapes. -/
def hex4 (n : Nat) : String :=
  String.mk [hexDigit (n / 4096 % 16), hexDigit (n / 256 % 16),
             hexDigit (n / 16 % 16), hexDigit (n % 16)]

/-- The escape `json.dumps` (with its default `ensure_ascii=True`) applies to
one character of a string. -/
def jsonEscapeChar (c : Char) : String :=
  if c = '"' then "\\\""
  else if c = '\\' then "\\\\"
  else if c = '\n' then "\\n"
  else if c = '\x0d' then "\\r"
  else if c = '\t' then "\\t"
  else if c = '\x08' then "\\b"
  else if c = '\x0c' then "\\f"
  else if c.toNat < 32 || c.toNat > 126 then
    if c.toNat ≤ 65535 then "\\u" ++ hex4 c.toNat
    else
      "\\u" ++ hex4 (55296 + (c.toNat - 65536) / 1024) ++
      "\\u" ++ hex4 (56320 + (c.toNat - 65536) % 1024)
  else String.mk [c]

/-- JSON rendering of a string literal, with `json.dumps` default escaping. -/
def jsonStringLit (s : String) : String :=
  "\"" ++ String.join (s.toList.map jsonEscapeChar) ++ "\""

mutual
/-- `json.dumps` with default arguments (item separator `", "`, key separator
`": "`, `ensure_ascii=True`) on the modelled values. -/
def pyJsonDumps : PyVal → String
  | .str s => jsonStringLit s
  | .int n => toString n
  | .bool b => if b then "true" else "false"
  | .none => "null"
  | .list xs => "[" ++ pyJsonDumpsSeq xs ++ "]"
  | .dict es => "\x7b" ++ pyJsonDumpsPairs es ++ "\x7d"

/-- Comma-separated JSON renderings of list elements. -/
def pyJsonDumpsSeq : List PyVal → String
  | [] => ""
  | [x] => pyJsonDumps x
  | x :: y :: rest => pyJsonDumps x ++ ", " ++ pyJsonDumpsSeq (y :: rest)

/-- Comma-separated JSON renderings of dict entries. -/
def pyJsonDumpsPairs : List (String × PyVal) → String
  | [] => ""
  | [(k, v)] => jsonStringLit k ++ ": " ++ pyJsonDumps v
  | (k, v) :: p :: rest =>
      jsonStringLit k ++ ": " ++ pyJsonDumps v ++ ", " ++ pyJsonDumpsPairs (p :: rest)
end

/-- The `databases` list `list_databases_sync` computes from the value that
`client.command("SHOW DATABASES")` returned (mcp_server.py lines 143-147):
a string is stripped, split on newlines, and each piece stripped; any other
value becomes the one-element list holding it. -/
def databasesOf : PyVal → List PyVal
  | .str s => (splitOnNewline (pyStrip s)).map (fun db => PyVal.str (pyStrip db))
  | v => [v]

/-- `list_databases_sync` (mcp_server.py lines 136-160): create a client
(before the try block, so a connect failure propagates unwrapped), run
`SHOW DATABASES`, shape the result via `databasesOf`, and return
`json.dumps(databases)` — a string.  An exception raised inside the try block
is re-raised as `ToolError("Failed to list databases: <str(e)>")`. -/
def list_databases_sync (connect : Except PyExn Unit)
    (commandResult : Except PyExn PyVal) : Except PyExn PyVal :=
  match connect with
  | .error e => .error e
  | .ok _ =>
      match commandResult with
      | .error e => .error (.toolError ("Failed to list databases: " ++ e.msg))
      | .ok v => .ok (PyVal.str (pyJsonDumps (PyVal.list (databasesOf v))))

/-- `list_databases` (mcp_server.py lines 163-181), over the awaited pool
outcome of the submitted `list_databases_sync` work item. -/
def list_databases (awaitResult : Nat → PoolOutcome PyVal) : Except PyExn PyVal :=
  match awaitResult SELECT_QUERY_TIMEOUT_SECS with
  | .completed result => .ok result
  | .timedOut =>
      .error (.toolError
        ("List databases operation timed out after " ++
          toString SELECT_QUERY_TIMEOUT_SECS ++ " seconds"))
  | .raised (.toolError m) => .error (.toolError m)
  | .raised e =>
      .error (.runtimeError
        ("Unexpected error during list databases operation: " ++ e.msg))

/-
Schema introspection (`list_tables_sync` / `list_tables`).
-/

/-- The `Column` dataclass (mcp_server.py lines 24-32). -/
structure Column where
  database : String
  table : String
  name : String
  column_type : String
  default_kind : Option String
  default_expression : Option String
  comment : Option String
deriving Repr, DecidableEq

/-- The `Table` dataclass (mcp_server.py lines 35-49). -/
structure Table where
  database : String
  name : String
  engine : String
  create_table_query : String
  dependencies_database : String
  dependencies_table : String
  engine_full : String
  sorting_key : String
  primary_key : String
  total_rows : Nat
  total_bytes : Nat
  comment : Option String := Option.none
  columns : List Column := []
deriving Repr, DecidableEq

/-- The queries `list_tables_sync` issues against the backend, by their
parameters: the `system.tables` query (with the database filter and the
optional LIKE / NOT LIKE name patterns), and the single batched
`system.columns` query over all matched table names. -/
inductive IssuedQuery where
  | tablesQuery (database : String) (like notLike : Option String)
  | columnsQuery (database : String) (tables : List String)
deriving Repr, DecidableEq

/-- The backend stub for `list_tables_sync`: the rows each of the two queries
returns, already projected onto the dataclasses (`result_to_table` /
`result_to_column` zip the backend's column names onto the record fields). -/
structure TablesClient where
  tablesFor : String → Option String → Option String → List Table
  columnsFor : String → List String → List Column

/-- One step of the source's grouping loop: append column `c` to the group of
its table name in the insertion-ordered mapping `m` (a fresh single-column
group is appended at the end when the key is new), exactly as the Python
`dict`-of-lists loop does. -/
def addColumn (m : List (String × List Column)) (c : Column) :
    List (String × List Column) :=
  match m with
  | [] => [(c.table, [c])]
  | (k, v) :: rest =>
      if k = c.table then (k, v ++ [c]) :: rest
      else (k, v) :: addColumn rest c

/-- The `columns_by_table` mapping (mcp_server.py lines 225-230): fold the
column rows through the grouping loop, starting from the empty dict. -/
def columnsByTable (cols : List Column) : List (String × List Column) :=
  cols.foldl addColumn []

/-- `columns_by_table.get(name, [])` (mcp_server.py line 234). -/
def lookupColumns (m : List (String × List Column)) (nm : String) : List Column :=
  match m with
  | [] => []
  | (k, v) :: rest => if k = nm then v else lookupColumns rest nm

/-- `list_tables_sync` (mcp_server.py lines 184-247), returning the list of
queries issued to the backend alongside the result.  The `system.tables`
query is always issued; if it matches no tables the function returns `[]`
immediately, otherwise it issues exactly one batched `system.columns` query
over all matched table names, groups the returned column rows by table name,
and attaches each table's group (defaulting to `[]`). -/
def list_tables_sync (client : TablesClient) (database : String)
    (like notLike : Option String) : List IssuedQuery × List Table :=
  let tables := client.tablesFor database like notLike
  if tables.isEmpty then
    ([IssuedQuery.tablesQuery database like notLike], [])
  else
    let table_names := tables.map Table.name
    let all_columns := client.columnsFor database table_names
    let columns_by_table := columnsByTable all_columns
    ([IssuedQuery.tablesQuery database like notLike,
      IssuedQuery.columnsQuery database table_names],
     tables.map (fun t => { t with columns := lookupColumns columns_by_table t.name }))

/-- `list_tables` (mcp_server.py lines 250-271), over the awaited pool outcome
of the submitted `list_tables_sync` work item, with the 120-second budget. -/
def list_tables (awaitResult : Nat → PoolOutcome (List Table)) :
    Except PyExn (List Table) :=
  match awaitResult LIST_TABLES_TIMEOUT_SECS with
  | .completed result => .ok result
  | .timedOut =>
      .error (.toolError
        ("List tables operation timed out after " ++
          toString LIST_TABLES_TIMEOUT_SECS ++ " seconds"))
  | .raised (.toolError m) => .error (.toolError m)
  | .raised e =>
      .error (.runtimeError
        ("Unexpected error during list tables operation: " ++ e.msg))

/-
The health probe (`health_check`, mcp_server.py lines 98-115).
-/

/-- A starlette `PlainTextResponse`, by its body and status code. -/
structure PlainTextResponse where
  body : String
  status_code : Nat
deriving Repr, DecidableEq

/-- `health_check`, over the awaited pool outcome of the submitted
`health_check_sync` work item (a string on success): a timeout and a raised
exception both produce a 503 response. -/
def health_check (awaitResult : Nat → PoolOutcome String) : PlainTextResponse :=
  match awaitResult HEALTH_CHECK_TIMEOUT_SECS with
  | .completed result => ⟨result, 200⟩
  | .timedOut => ⟨"ERROR - Health check timed out", 503⟩
  | .raised e => ⟨"ERROR - Cannot connect to ClickHouse: " ++ e.msg, 503⟩

/-
The embedded engine (chDB) side.
-/

/-- The raw result of `session.query(sql, "JSON")` on a chdb session, at the
interface the source consumes: `has_error()`, `error_message()`, `data()`. -/
structure ChdbRawResult where
  has_error : Bool
  error_message : String
  data : String

/-- A chdb session: its `query(sql, format)` method. -/
structure ChdbSession where
  query : String → String → ChdbRawResult

/-- The process-level chDB state the functions read: the config's enabled
flag, and the `_chdb_client` global, which `_init_chdb_client` (mcp_server.py
lines 436-451) leaves `None` when the feature is disabled or construction
raised. -/
structure ChdbEnv where
  chdbEnabled : Bool
  chdbClient : Option ChdbSession

/-- `create_chdb_client` (mcp_server.py lines 372-376): raise a `ValueError`
when the feature is disabled, otherwise return the `_chdb_client` global
(which may be Python `None`). -/
def create_chdb_client (env : ChdbEnv) : Except PyExn (Option ChdbSession) :=
  if !env.chdbEnabled then
    .error (.valueError "chDB is not enabled. Set CHDB_ENABLED=true to enable it.")
  else .ok env.chdbClient

/-- `execute_chdb_query` (mcp_server.py lines 379-399).  `create_chdb_client`
is called before the try block, so its `ValueError` propagates unwrapped.
Inside the try block every raised exception is caught and turned into the
returned dict `{"error": str(err)}`: calling `.query` on a `None` client
raises an `AttributeError`, a `json.loads` failure raises, and `.get` on a
parsed non-dict raises an `AttributeError`.  `parseJson` is the `json.loads`
oracle: the parsed value, or the raised exception's `str`. -/
def execute_chdb_query (parseJson : String → Except String PyVal) (env : ChdbEnv)
    (query : String) : Except PyExn PyVal :=
  match create_chdb_client env with
  | .error e => .error e
  | .ok Option.none =>
      .ok (PyVal.dict
        [("error", PyVal.str "\x27NoneType\x27 object has no attribute \x27query\x27")])
  | .ok (Option.some client) =>
      let res := client.query query "JSON"
      if res.has_error then
        .ok (PyVal.dict [("error", PyVal.str res.error_message)])
      else if res.data = "" then
        .ok (PyVal.list [])
      else
        match parseJson res.data with
        | .error emsg => .ok (PyVal.dict [("error", PyVal.str emsg)])
        | .ok result_json =>
            match result_json with
            | .dict es => .ok ((lookupEntry es "data").getD (PyVal.list []))
            | other =>
                .ok (PyVal.dict
                  [("error", PyVal.str
                    ("\x27" ++ other.pyTypeName ++
                      "\x27 object has no attribute \x27get\x27"))])

/-- `run_chdb_select_query` (mcp_server.py lines 402-428), over the awaited
pool outcome of the submitted `execute_chdb_query` work item.  Unlike the
ClickHouse operations, no branch raises: a completed dict carrying an
"error" key, a timeout, and any raised exception are all returned as
`{"status": "error", "message": ...}` payloads. -/
def run_chdb_select_query (awaitResult : Nat → PoolOutcome PyVal) :
    Except PyExn PyVal :=
  match awaitResult SELECT_QUERY_TIMEOUT_SECS with
  | .completed result =>
      if pyIsDict result && pyDictHasKey result "error" then
        .ok (PyVal.dict
          [("status", PyVal.str "error"),
           ("message", PyVal.str
              ("chDB query failed: " ++ pyStrOf (pyDictGetD result "error" PyVal.none)))])
      else .ok result
  | .timedOut =>
      .ok (PyVal.dict
        [("status", PyVal.str "error"),
         ("message", PyVal.str
            ("chDB query timed out after " ++
              toString SELECT_QUERY_TIMEOUT_SECS ++ " seconds"))])
  | .raised e =>
      .ok (PyVal.dict
        [("status", PyVal.str "error"),
         ("message", PyVal.str ("Unexpected error: " ++ e.msg))])

/-- The whole `run_chdb_select_query` call path with the pool submission made
observable: the source submits `execute_chdb_query` to `QUERY_EXECUTOR`
unconditionally (mcp_server.py line 406) before anything inspects the chDB
state, so the first component — the submitted work items, by their query
string — is always the singleton.  The second component is the call's result
when the pool runs the work item to completion. -/
def run_chdb_select_query_pipeline (parseJson : String → Except String PyVal)
    (env : ChdbEnv) (query : String) : List String × Except PyExn PyVal :=
  ([query],
   run_chdb_select_query (fun _ => outcomeOf (execute_chdb_query parseJson env query)))

/-
Concrete backends used to evaluate the theorems on closed inputs.
-/

/-- A client whose server reports readonly level "0" and whose query result
echoes back the readonly value the adapter sent with the call. -/
def c1EchoClient : ClickhouseClient where
  server_readonly := Option.some ⟨"readonly", "0", 0⟩
  runQuery := fun _ ro => .ok ⟨["readonly_sent"], [[PyVal.str ro]]⟩

/-- A client whose backend rejects every query with a syntax error. -/
def c2BadClient : ClickhouseClient where
  server_readonly := Option.none
  runQuery := fun _ _ => .error "Syntax error: failed at position 8"

/-- A client whose backend answers every query with one row. -/
def c2GoodClient : ClickhouseClient where
  server_readonly := Option.none
  runQuery := fun _ _ => .ok ⟨["1"], [[PyVal.int 1]]⟩

/-- The awaited outcome of the `list_databases_sync` work item against a
backend whose `SHOW DATABASES` returns the two-line string `"db1\ndb2"`. -/
def c5Await : Nat → PoolOutcome PyVal :=
  fun _ => outcomeOf (list_databases_sync (Except.ok ()) (Except.ok (PyVal.str "db1\ndb2")))

/-- An example table row of database `d`. -/
def exTableRow (nm : String) : Table where
  database := "d"
  name := nm
  engine := "MergeTree"
  create_table_query := "CREATE TABLE ..."
  dependencies_database := ""
  dependencies_table := ""
  engine_full := "MergeTree ORDER BY tuple()"
  sorting_key := ""
  primary_key := ""
  total_rows := 1
  total_bytes := 10

/-- An example column row of database `d`. -/
def exColRow (t nm : String) : Column where
  database := "d"
  table := t
  name := nm
  column_type := "String"
  default_kind := Option.none
  default_expression := Option.none
  comment := Option.none

/-- A backend with two matching tables and five columns split 3/2 across
them. -/
def exTablesClient : TablesClient where
  tablesFor := fun _ _ _ => [exTableRow "t1", exTableRow "t2"]
  columnsFor := fun _ _ =>
    [exColRow "t1" "a", exColRow "t1" "b", exColRow "t1" "c",
     exColRow "t2" "x", exColRow "t2" "y"]

/-- A backend with no matching tables. -/
def exEmptyTablesClient : TablesClient where
  tablesFor := fun _ _ _ => []
  columnsFor := fun _ _ => []

/-- The first entry of `list_tables_sync` on `exTablesClient`: the `t1` row
with its three columns attached. -/
def exResTable1 : Table :=
  { exTableRow "t1" with
      columns := [exColRow "t1" "a", exColRow "t1" "b", exColRow "t1" "c"] }

/-- A chdb session whose engine reports an error on every query. -/
def exChdbErrSession : ChdbSession where
  query := fun _ _ => ⟨true, "Missing columns", ""⟩

/-- A chdb session whose engine returns an empty data payload. -/
def exChdbEmptySession : ChdbSession where
  query := fun _ _ => ⟨false, "", ""⟩

/-- A chdb session whose engine returns a JSON payload with one data row. -/
def exChdbDataSession : ChdbSession where
  query := fun _ _ => ⟨false, "", "\x7b\"data\": [1]\x7d"⟩

/-- A `json.loads` oracle parsing `exChdbDataSession`'s payload. -/
def exChdbParse : String → Except String PyVal :=
  fun s =>
    if s = "\x7b\"data\": [1]\x7d" then
      Except.ok (PyVal.dict [("meta", PyVal.list []), ("data", PyVal.list [PyVal.int 1])])
    else Except.error "Expecting value: line 1 column 1 (char 0)"

/-
Helper lemmas about the column grouping.
-/

/-- One grouping step appends `c` to the looked-up group of its table name
and leaves every other group unchanged. -/
theorem lookupColumns_addColumn (m : List (String × List Column)) (c : Column)
    (nm : String) :
    lookupColumns (addColumn m c) nm
      = lookupColumns m nm ++ (if c.table = nm then [c] else []) := by
  induction m with
  | nil => by_cases h : c.table = nm <;> simp [addColumn, lookupColumns, h]
  | cons p rest ih =>
      obtain ⟨k, v⟩ := p
      by_cases hk : k = c.table
      · by_cases hn : k = nm
        · have hcn : c.table = nm := hk.symm.trans hn
          simp [addColumn, lookupColumns, hk, hn, hcn]
        · have hcn : ¬ c.table = nm := fun h => hn (hk.trans h)
          simp [addColumn, lookupColumns, hk, hn, hcn]
      · by_cases hn : k = nm
        · have hcn : ¬ c.table = nm := fun h => hk (hn.trans h.symm)
          have hk2 : ¬ nm = c.table := fun h => hk (hn.trans h)
          simp [addColumn, lookupColumns, hk, hn, hcn, hk2]
        · simp [addColumn, lookupColumns, hk, hn, ih]

/-- The grouped mapping looked up at a table name yields exactly the column
rows whose `table` field is that name, in their original order. -/
theorem lookupColumns_columnsByTable (cols : List Column) (nm : String) :
    lookupColumns (columnsByTable cols) nm
      = cols.filter (fun c => decide (c.table = nm)) := by
  suffices h : ∀ m, lookupColumns (cols.foldl addColumn m) nm
      = lookupColumns m nm ++ cols.filter (fun c => decide (c.table = nm)) by
    simpa [columnsByTable, lookupColumns] using h []
  induction cols with
  | nil => intro m; simp
  | cons c cs ih =>
      intro m
      rw [List.foldl_cons, ih (addColumn m c), lookupColumns_addColumn]
      by_cases h : c.table = nm <;>
        simp [h, List.filter_cons, List.append_assoc]

/-
The claims.
-/

/-- C1: the claim states `get_readonly_setting` yields "1" when the server
reports readonly "0".  On the code this fails: the comparison
`read_only == "0"` in the source puts a `SettingDef` named tuple against a
string, which is always `False` in Python, so the force-to-"1" branch is
unreachable and the else branch returns `read_only.value`, i.e. "0".  The
claim's other three rows do hold: "1" and "2" pass through via `.value`, and
an absent setting defaults to "1".  The last conjunct evaluates the whole
`execute_query` path against a server reporting "0", with a backend that
echoes back the readonly value the adapter attached to the row query:
the query is sent with readonly "0", not "1". -/
theorem c1_readonly_zero_passes_through :
    get_readonly_setting (Option.some ⟨"readonly", "0", 0⟩) = "0"
    ∧ get_readonly_setting (Option.some ⟨"readonly", "0", 0⟩) ≠ "1"
    ∧ get_readonly_setting (Option.some ⟨"readonly", "1", 1⟩) = "1"
    ∧ get_readonly_setting (Option.some ⟨"readonly", "2", 1⟩) = "2"
    ∧ get_readonly_setting Option.none = "1"
    ∧ execute_query (Except.ok c1EchoClient) "SELECT 1"
        = Except.ok (PyVal.dict
            [("columns", PyVal.list [PyVal.str "readonly_sent"]),
             ("rows", PyVal.list [PyVal.list [PyVal.str "0"]])]) :=
  ⟨rfl, by decide, rfl, rfl, rfl, rfl⟩

/-- C2 counterexample: a backend-reported query failure (a syntax error
raised by `client.query`) makes `run_select_query` raise
`ToolError("Query execution failed: ...")`; the call's outcome is a raised
fault, not an `{status: "error", ...}` payload returned as data, so the
claim fails as stated. -/
theorem c2_counterexample :
    run_select_query (fun _ => outcomeOf (execute_query (Except.ok c2BadClient) "SELECT bogus FROM"))
      = Except.error (PyExn.toolError "Query execution failed: Syntax error: failed at position 8")
    ∧ (run_select_query (fun _ => outcomeOf
        (execute_query (Except.ok c2BadClient) "SELECT bogus FROM"))).isOk = false :=
  ⟨rfl, rfl⟩

/-- C2 (amended): a backend-reported query failure propagates out of
`run_select_query` as a raised `ToolError` whose message is
"Query execution failed: <detail>"; the structured `{status: "error"}`
payload branch of `run_select_query` only applies to a returned dict that
carries an "error" key, and `execute_query` never returns such a dict (its
successful results are always `{"columns": ..., "rows": ...}`). -/
theorem c2_backend_error_is_raised :
    (∀ (client : ClickhouseClient) (q msg : String),
        client.runQuery q (get_readonly_setting client.server_readonly)
          = Except.error msg →
        run_select_query (fun _ => outcomeOf (execute_query (Except.ok client) q))
          = Except.error (PyExn.toolError ("Query execution failed: " ++ msg)))
    ∧ (∀ (connect : Except PyExn ClickhouseClient) (q : String) (v : PyVal),
        execute_query connect q = Except.ok v → pyDictHasKey v "error" = false) := by
  constructor
  · intro client q msg h
    simp [execute_query, h, outcomeOf, run_select_query]
  · intro connect q v h
    match connect with
    | .error e => simp [execute_query] at h
    | .ok client =>
        rcases hq : client.runQuery q (get_readonly_setting client.server_readonly) with
          err | res
        · rw [execute_query] at h
          rw [hq] at h
          cases h
        · rw [execute_query] at h
          rw [hq] at h
          cases h
          simp [queryPayload, pyDictHasKey, lookupEntry]

/-- C2 witness: the amended theorem evaluated on concrete backends — one
whose query raises a syntax error (first conjunct), one that answers a row
(second conjunct, showing the successful payload carries no "error" key). -/
theorem c2_backend_error_is_raised_witness :
    run_select_query (fun _ => outcomeOf (execute_query (Except.ok c2BadClient) "SELECT bogus FROM"))
      = Except.error (PyExn.toolError "Query execution failed: Syntax error: failed at position 8")
    ∧ pyDictHasKey (queryPayload ⟨["1"], [[PyVal.int 1]]⟩) "error" = false :=
  ⟨c2_backend_error_is_raised.1 c2BadClient "SELECT bogus FROM"
      "Syntax error: failed at position 8" rfl,
   c2_backend_error_is_raised.2 (Except.ok c2GoodClient) "SELECT 1"
      (queryPayload ⟨["1"], [[PyVal.int 1]]⟩) rfl⟩

/-- C3 counterexample: on a timed-out wait, `run_chdb_select_query` does not
raise a typed tool error — it returns the timeout message as an ordinary
`{status: "error", ...}` data payload (its outcome is a normal return, never
a raised exception), so the claim fails as stated for
`runEmbeddedSelectQuery`. -/
theorem c3_counterexample :
    run_chdb_select_query (fun _ => PoolOutcome.timedOut)
      = Except.ok (PyVal.dict
          [("status", PyVal.str "error"),
           ("message", PyVal.str "chDB query timed out after 30 seconds")])
    ∧ (run_chdb_select_query (fun _ => PoolOutcome.timedOut)).isOk = true :=
  ⟨rfl, rfl⟩

/-- C3 (amended): `list_databases`, `list_tables` and `run_select_query`
raise a `ToolError` carrying the elapsed timeout budget when the awaited
pool result exceeds its deadline, re-raise a raised `ToolError` as-is, and
wrap any other raised exception into a `RuntimeError`;
`run_chdb_select_query` instead returns the timeout as the data payload
`{status: "error", message: "chDB query timed out after 30 seconds"}` and
wraps every raised exception (typed tool errors included) into the data
payload `{status: "error", message: "Unexpected error: <detail>"}`. -/
theorem c3_timeout_and_wrap_policy :
    (∀ f : Nat → PoolOutcome PyVal, f SELECT_QUERY_TIMEOUT_SECS = PoolOutcome.timedOut →
        list_databases f = Except.error (PyExn.toolError
          "List databases operation timed out after 30 seconds"))
    ∧ (∀ f : Nat → PoolOutcome (List Table),
        f LIST_TABLES_TIMEOUT_SECS = PoolOutcome.timedOut →
        list_tables f = Except.error (PyExn.toolError
          "List tables operation timed out after 120 seconds"))
    ∧ (∀ f : Nat → PoolOutcome PyVal, f SELECT_QUERY_TIMEOUT_SECS = PoolOutcome.timedOut →
        run_select_query f = Except.error (PyExn.toolError
          "Query timed out after 30 seconds"))
    ∧ (∀ (f : Nat → PoolOutcome PyVal) (m : String),
        f SELECT_QUERY_TIMEOUT_SECS = PoolOutcome.raised (PyExn.toolError m) →
        list_databases f = Except.error (PyExn.toolError m)
        ∧ run_select_query f = Except.error (PyExn.toolError m))
    ∧ (∀ (f : Nat → PoolOutcome (List Table)) (m : String),
        f LIST_TABLES_TIMEOUT_SECS = PoolOutcome.raised (PyExn.toolError m) →
        list_tables f = Except.error (PyExn.toolError m))
    ∧ (∀ (f : Nat → PoolOutcome PyVal) (m : String),
        f SELECT_QUERY_TIMEOUT_SECS = PoolOutcome.raised (PyExn.otherError m) →
        list_databases f = Except.error (PyExn.runtimeError
          ("Unexpected error during list databases operation: " ++ m))
        ∧ run_select_query f = Except.error (PyExn.runtimeError
          ("Unexpected error during query execution: " ++ m)))
    ∧ (∀ (f : Nat → PoolOutcome (List Table)) (m : String),
        f LIST_TABLES_TIMEOUT_SECS = PoolOutcome.raised (PyExn.otherError m) →
        list_tables f = Except.error (PyExn.runtimeError
          ("Unexpected error during list tables operation: " ++ m)))
    ∧ (∀ f : Nat → PoolOutcome PyVal, f SELECT_QUERY_TIMEOUT_SECS = PoolOutcome.timedOut →
        run_chdb_select_query f = Except.ok (PyVal.dict
          [("status", PyVal.str "error"),
           ("message", PyVal.str "chDB query timed out after 30 seconds")]))
    ∧ (∀ (f : Nat → PoolOutcome PyVal) (e : PyExn),
        f SELECT_QUERY_TIMEOUT_SECS = PoolOutcome.raised e →
        run_chdb_select_query f = Except.ok (PyVal.dict
          [("status", PyVal.str "error"),
           ("message", PyVal.str ("Unexpected error: " ++ e.msg))])) := by
  refine ⟨?_, ?_, ?_, ?_, ?_, ?_, ?_, ?_, ?_⟩
  · intro f h; simp [list_databases, h]; rfl
  · intro f h; simp [list_tables, h]; rfl
  · intro f h; simp [run_select_query, h]; rfl
  · intro f m h; exact ⟨by simp [list_databases, h], by simp [run_select_query, h]⟩
  · intro f m h; simp [list_tables, h]
  · intro f m h
    exact ⟨by simp [list_databases, h, PyExn.msg], by simp [run_select_query, h, PyExn.msg]⟩
  · intro f m h; simp [list_tables, h, PyExn.msg]
  · intro f h; simp [run_chdb_select_query, h]; rfl
  · intro f e h; simp [run_chdb_select_query, h]

/-- C3 witness: the amended theorem evaluated at constant await oracles for
each of the four operations and each failure mode. -/
theorem c3_timeout_and_wrap_policy_witness :
    list_databases (fun _ => PoolOutcome.timedOut)
      = Except.error (PyExn.toolError "List databases operation timed out after 30 seconds")
    ∧ list_tables (fun _ => PoolOutcome.timedOut)
      = Except.error (PyExn.toolError "List tables operation timed out after 120 seconds")
    ∧ run_select_query (fun _ => PoolOutcome.timedOut)
      = Except.error (PyExn.toolError "Query timed out after 30 seconds")
    ∧ list_databases (fun _ => PoolOutcome.raised (PyExn.toolError "boom"))
      = Except.error (PyExn.toolError "boom")
    ∧ list_tables (fun _ => PoolOutcome.raised (PyExn.toolError "boom"))
      = Except.error (PyExn.toolError "boom")
    ∧ list_databases (fun _ => PoolOutcome.raised (PyExn.otherError "oops"))
      = Except.error (PyExn.runtimeError
          "Unexpected error during list databases operation: oops")
    ∧ list_tables (fun _ => PoolOutcome.raised (PyExn.otherError "oops"))
      = Except.error (PyExn.runtimeError
          "Unexpected error during list tables operation: oops")
    ∧ run_chdb_select_query (fun _ => PoolOutcome.timedOut)
      = Except.ok (PyVal.dict
          [("status", PyVal.str "error"),
           ("message", PyVal.str "chDB query timed out after 30 seconds")])
    ∧ run_chdb_select_query (fun _ => PoolOutcome.raised (PyExn.toolError "boom"))
      = Except.ok (PyVal.dict
          [("status", PyVal.str "error"),
           ("message", PyVal.str "Unexpected error: boom")]) := by
  obtain ⟨h1, h2, h3, h4, h5, h6, h7, h8, h9⟩ := c3_timeout_and_wrap_policy
  exact ⟨h1 _ rfl, h2 _ rfl, h3 _ rfl, (h4 _ "boom" rfl).1, h5 _ "boom" rfl,
    (h6 _ "oops" rfl).1, h7 _ "oops" rfl, h8 _ rfl, h9 _ (PyExn.toolError "boom") rfl⟩

/-- C4 counterexample: with the embedded feature disabled, a
`run_chdb_select_query` call does NOT fail fast before pool submission — the
work item is submitted (the submission log is the non-empty `["SELECT 1"]`),
the `ValueError` from `create_chdb_client` is raised inside the pooled work,
and the call returns an "Unexpected error" data payload instead of raising a
configuration error.  This refutes the claim as stated. -/
theorem c4_counterexample :
    run_chdb_select_query_pipeline (fun s => Except.error ("json error " ++ s))
        ⟨false, Option.none⟩ "SELECT 1"
      = (["SELECT 1"],
         Except.ok (PyVal.dict
           [("status", PyVal.str "error"),
            ("message", PyVal.str
              "Unexpected error: chDB is not enabled. Set CHDB_ENABLED=true to enable it.")])) :=
  rfl

/-- C4 (amended): a `run_chdb_select_query` call made while the
embedded-engine session failed to initialize still submits its work item to
the dispatch pool; the configuration check runs inside the pooled work, and
the failure comes back as a structured data payload rather than a raised
configuration error — `Unexpected error: chDB is not enabled. ...` when the
feature is disabled (the `ValueError` escapes `execute_chdb_query` and is
caught by the outer handler), and `chDB query failed: 'NoneType' object has
no attribute 'query'` when construction failed and the global client is
`None`. -/
theorem c4_no_fail_fast_before_submission :
    (∀ (parse : String → Except String PyVal) (q : String) (c : Option ChdbSession),
        run_chdb_select_query_pipeline parse ⟨false, c⟩ q
          = ([q], Except.ok (PyVal.dict
              [("status", PyVal.str "error"),
               ("message", PyVal.str
                 "Unexpected error: chDB is not enabled. Set CHDB_ENABLED=true to enable it.")])))
    ∧ (∀ (parse : String → Except String PyVal) (q : String),
        run_chdb_select_query_pipeline parse ⟨true, Option.none⟩ q
          = ([q], Except.ok (PyVal.dict
              [("status", PyVal.str "error"),
               ("message", PyVal.str
                 "chDB query failed: \x27NoneType\x27 object has no attribute \x27query\x27")]))) :=
  ⟨fun _ _ _ => rfl, fun _ _ => rfl⟩

/-- C5 counterexample: against a backend whose `SHOW DATABASES` reports the
two databases `db1` and `db2`, `list_databases` returns the single JSON
string `"[\"db1\", \"db2\"]"` (the `json.dumps` of the name list), not a
sequence of database-name strings, so the claim fails as stated. -/
theorem c5_counterexample :
    list_databases c5Await = Except.ok (PyVal.str "[\"db1\", \"db2\"]")
    ∧ list_databases c5Await
        ≠ Except.ok (PyVal.list [PyVal.str "db1", PyVal.str "db2"]) := by
  refine ⟨rfl, ?_⟩
  intro h
  rw [show list_databases c5Await = Except.ok (PyVal.str "[\"db1\", \"db2\"]") from rfl] at h
  exact PyVal.noConfusion (Except.ok.inj h)

/-- C5 (amended): for every string the backend's `SHOW DATABASES` command
returns, a successful `list_databases` call returns a single JSON string —
the `json.dumps` serialization of the database-name list (one element per
reported database) — rather than the sequence itself. -/
theorem c5_returns_json_string (v : PyVal) :
    list_databases (fun _ => outcomeOf (list_databases_sync (Except.ok ()) (Except.ok v)))
      = Except.ok (PyVal.str (pyJsonDumps (PyVal.list (databasesOf v)))) :=
  rfl

/-- C6: the column join of `list_tables_sync`.  Under the backend's SQL
semantics (every row of the `system.tables` query and of the batched
`system.columns` query belongs to the requested database), every returned
table carries exactly the column rows whose `table` field equals its name,
in backend order (the Python dict grouping is insertion-ordered and
appending); hence every attached column's `database` and `table` fields
match its owning table, and a matched table for which the column query
returned no rows gets the empty list (the `columns` field always exists). -/
theorem c6_column_join (client : TablesClient) (database : String)
    (like notLike : Option String)
    (hdb : ∀ t ∈ client.tablesFor database like notLike, t.database = database)
    (hcols : ∀ c ∈ client.columnsFor database
        ((client.tablesFor database like notLike).map Table.name),
        c.database = database) :
    ∀ t ∈ (list_tables_sync client database like notLike).2,
      t.columns = (client.columnsFor database
          ((client.tablesFor database like notLike).map Table.name)).filter
            (fun c => decide (c.table = t.name))
      ∧ (∀ c ∈ t.columns, c.database = t.database ∧ c.table = t.name)
      ∧ ((∀ c ∈ client.columnsFor database
            ((client.tablesFor database like notLike).map Table.name),
            c.table ≠ t.name) → t.columns = []) := by
  intro t ht
  rw [list_tables_sync] at ht
  by_cases he : (client.tablesFor database like notLike).isEmpty
  · simp [he] at ht
  · rw [if_neg he] at ht
    simp only [List.mem_map] at ht
    obtain ⟨t0, ht0, rfl⟩ := ht
    refine ⟨?_, ?_, ?_⟩
    · exact lookupColumns_columnsByTable _ _
    · intro c hc
      have hc2 : c ∈ lookupColumns (columnsByTable (client.columnsFor database
          ((client.tablesFor database like notLike).map Table.name))) t0.name := hc
      rw [lookupColumns_columnsByTable, List.mem_filter] at hc2
      exact ⟨(hcols c hc2.1).trans (hdb t0 ht0).symm, of_decide_eq_true hc2.2⟩
    · intro hnone
      have hfil : (client.columnsFor database
          ((client.tablesFor database like notLike).map Table.name)).filter
            (fun x => decide (x.table = t0.name)) = [] := by
        rw [List.filter_eq_nil_iff]
        intro c hc
        simp only [decide_eq_true_eq]
        exact hnone c hc
      exact (lookupColumns_columnsByTable _ _).trans hfil

/-- C6 witness: on a backend with two matched tables (`t1`, `t2`) and five
column rows split 3/2 across them, the `t1` entry of the result carries
exactly its three columns, and their fields match the owning table. -/
theorem c6_column_join_witness :
    exResTable1.columns = (exTablesClient.columnsFor "d" ["t1", "t2"]).filter
        (fun c => decide (c.table = exResTable1.name))
    ∧ (exColRow "t1" "a").database = exResTable1.database
    ∧ (exColRow "t1" "a").table = exResTable1.name := by
  have h := c6_column_join exTablesClient "d" Option.none Option.none
      (by decide) (by decide) exResTable1 (by decide)
  have hmem : exColRow "t1" "a" ∈ exResTable1.columns := by decide
  exact ⟨h.1, (h.2.1 (exColRow "t1" "a") hmem).1, (h.2.1 (exColRow "t1" "a") hmem).2⟩

/-- C7: `list_tables_sync` on a database with zero matching tables returns
the empty sequence having issued only the `system.tables` query (no column
query); with at least one match it issues exactly the `system.tables` query
followed by one batched `system.columns` query covering all matched table
names. -/
theorem c7_batched_column_query (client : TablesClient) (database : String)
    (like notLike : Option String) :
    (client.tablesFor database like notLike = [] →
      list_tables_sync client database like notLike
        = ([IssuedQuery.tablesQuery database like notLike], []))
    ∧ (client.tablesFor database like notLike ≠ [] →
      (list_tables_sync client database like notLike).1
        = [IssuedQuery.tablesQuery database like notLike,
           IssuedQuery.columnsQuery database
             ((client.tablesFor database like notLike).map Table.name)]) := by
  constructor
  · intro h
    rw [list_tables_sync]
    simp [h]
  · intro h
    rw [list_tables_sync]
    simp [h]

/-- C7 witness: the theorem evaluated on a backend with no matching tables
(one query, empty result) and on one with two matching tables (two queries,
the second covering both table names). -/
theorem c7_batched_column_query_witness :
    list_tables_sync exEmptyTablesClient "d" Option.none Option.none
      = ([IssuedQuery.tablesQuery "d" Option.none Option.none], [])
    ∧ (list_tables_sync exTablesClient "d" Option.none Option.none).1
      = [IssuedQuery.tablesQuery "d" Option.none Option.none,
         IssuedQuery.columnsQuery "d" ["t1", "t2"]] := by
  constructor
  · exact (c7_batched_column_query exEmptyTablesClient "d" Option.none Option.none).1 rfl
  · exact ((c7_batched_column_query exTablesClient "d" Option.none Option.none).2
      (by decide)).trans (by decide)

/-- C8: the timeout budget each operation awaits on the dispatch pool.
`SELECT_QUERY_TIMEOUT_SECS = 30` is the budget of `list_databases`,
`run_select_query` and `run_chdb_select_query`, the local
`LIST_TABLES_TIMEOUT_SECS = 120` is the budget of `list_tables`, and the
health probe awaits 10 seconds.  The last five conjuncts show each
operation's result depends on the await oracle only through its value at
that operation's constant — i.e. that constant is exactly the timeout the
operation awaits with. -/
theorem c8_timeout_budgets :
    SELECT_QUERY_TIMEOUT_SECS = 30
    ∧ LIST_TABLES_TIMEOUT_SECS = 120
    ∧ HEALTH_CHECK_TIMEOUT_SECS = 10
    ∧ (∀ f : Nat → PoolOutcome PyVal,
        list_databases f = list_databases (fun _ => f SELECT_QUERY_TIMEOUT_SECS))
    ∧ (∀ f : Nat → PoolOutcome PyVal,
        run_select_query f = run_select_query (fun _ => f SELECT_QUERY_TIMEOUT_SECS))
    ∧ (∀ f : Nat → PoolOutcome PyVal,
        run_chdb_select_query f
          = run_chdb_select_query (fun _ => f SELECT_QUERY_TIMEOUT_SECS))
    ∧ (∀ f : Nat → PoolOutcome (List Table),
        list_tables f = list_tables (fun _ => f LIST_TABLES_TIMEOUT_SECS))
    ∧ (∀ f : Nat → PoolOutcome String,
        health_check f = health_check (fun _ => f HEALTH_CHECK_TIMEOUT_SECS)) :=
  ⟨rfl, rfl, rfl, fun _ => rfl, fun _ => rfl, fun _ => rfl, fun _ => rfl, fun _ => rfl⟩

/-- C9 counterexample: on the command result `"db1\n"` (a trailing newline),
the code yields `["db1"]` — it strips the WHOLE string before splitting —
whereas splitting on newlines and stripping each name, as the claim states
it, yields `["db1", ""]`.  The claim fails as stated. -/
theorem c9_counterexample :
    databasesOf (PyVal.str "db1\n") = [PyVal.str "db1"]
    ∧ databasesOf (PyVal.str "db1\n")
        ≠ (splitOnNewline "db1\n").map (fun db => PyVal.str (pyStrip db)) := by
  refine ⟨rfl, ?_⟩
  intro h
  exact absurd (congrArg List.length h) (by decide)

/-- C9 (amended): when the backend's `SHOW DATABASES` command returns a
string, `list_databases_sync` first strips whitespace from the whole string,
then splits it on newlines and strips whitespace from each name; when it
returns any non-string value, the databases list is the one-element sequence
containing that value unchanged. -/
theorem c9_string_shaping :
    (∀ s : String, databasesOf (PyVal.str s)
        = (splitOnNewline (pyStrip s)).map (fun db => PyVal.str (pyStrip db)))
    ∧ (∀ v : PyVal, (∀ s, v ≠ PyVal.str s) → databasesOf v = [v]) := by
  constructor
  · intro s; rfl
  · intro v hv
    cases v with
    | str s => exact absurd rfl (hv s)
    | int n => rfl
    | bool b => rfl
    | list xs => rfl
    | dict es => rfl
    | none => rfl

/-- C9 witness: the amended theorem evaluated on the string `" db1 \ndb2"`
(whitespace stripped at both levels) and on the non-string value `7`. -/
theorem c9_string_shaping_witness :
    databasesOf (PyVal.str " db1 \ndb2") = [PyVal.str "db1", PyVal.str "db2"]
    ∧ databasesOf (PyVal.int 7) = [PyVal.int 7] :=
  ⟨(c9_string_shaping.1 " db1 \ndb2").trans rfl,
   c9_string_shaping.2 (PyVal.int 7) (fun _ h => PyVal.noConfusion h)⟩

/-- C10: result shapes of the embedded-engine path, for an enabled feature
with a constructed session.  When the engine reports an error, the call
returns the data payload `{status: "error", message: "chDB query failed:
<detail>"}` (`Except.ok`, so nothing is raised); when the engine returns an
empty data payload, the result is the empty sequence; otherwise — when
`json.loads` parses the payload into a dict — the result is that dict's
"data" field, defaulting to the empty sequence when absent (the third
conjunct takes the field's value as a row list, which is the shape chDB's
JSON output format produces). -/
theorem c10_chdb_result_shapes (parse : String → Except String PyVal)
    (session : ChdbSession) (q : String) :
    ((session.query q "JSON").has_error = true →
      run_chdb_select_query (fun _ => outcomeOf
          (execute_chdb_query parse ⟨true, Option.some session⟩ q))
        = Except.ok (PyVal.dict
            [("status", PyVal.str "error"),
             ("message", PyVal.str
                ("chDB query failed: " ++ (session.query q "JSON").error_message))]))
    ∧ ((session.query q "JSON").has_error = false →
       (session.query q "JSON").data = "" →
      run_chdb_select_query (fun _ => outcomeOf
          (execute_chdb_query parse ⟨true, Option.some session⟩ q))
        = Except.ok (PyVal.list []))
    ∧ (∀ (es : List (String × PyVal)) (rows : List PyVal),
        (session.query q "JSON").has_error = false →
        (session.query q "JSON").data ≠ "" →
        parse (session.query q "JSON").data = Except.ok (PyVal.dict es) →
        (lookupEntry es "data").getD (PyVal.list []) = PyVal.list rows →
        run_chdb_select_query (fun _ => outcomeOf
            (execute_chdb_query parse ⟨true, Option.some session⟩ q))
          = Except.ok (PyVal.list rows)) := by
  refine ⟨?_, ?_, ?_⟩
  · intro herr
    simp [execute_chdb_query, create_chdb_client, herr, outcomeOf,
      run_chdb_select_query, pyIsDict, pyDictHasKey, lookupEntry, pyDictGetD, pyStrOf]
  · intro herr hdata
    simp [execute_chdb_query, create_chdb_client, herr, hdata, outcomeOf,
      run_chdb_select_query, pyIsDict]
  · intro es rows herr hdata hparse hfield
    simp [execute_chdb_query, create_chdb_client, herr, hdata, hparse, hfield,
      outcomeOf, run_chdb_select_query, pyIsDict]

/-- C10 witness: the theorem evaluated on three concrete sessions — one whose
engine reports "Missing columns", one returning an empty payload, and one
returning a JSON payload whose "data" field holds one row. -/
theorem c10_chdb_result_shapes_witness :
    run_chdb_select_query (fun _ => outcomeOf
        (execute_chdb_query exChdbParse ⟨true, Option.some exChdbErrSession⟩ "q1"))
      = Except.ok (PyVal.dict
          [("status", PyVal.str "error"),
           ("message", PyVal.str "chDB query failed: Missing columns")])
    ∧ run_chdb_select_query (fun _ => outcomeOf
        (execute_chdb_query exChdbParse ⟨true, Option.some exChdbEmptySession⟩ "q2"))
      = Except.ok (PyVal.list [])
    ∧ run_chdb_select_query (fun _ => outcomeOf
        (execute_chdb_query exChdbParse ⟨true, Option.some exChdbDataSession⟩ "q3"))
      = Except.ok (PyVal.list [PyVal.int 1]) :=
  ⟨(c10_chdb_result_shapes exChdbParse exChdbErrSession "q1").1 rfl,
   (c10_chdb_result_shapes exChdbParse exChdbEmptySession "q2").2.1 rfl rfl,
   (c10_chdb_result_shapes exChdbParse exChdbDataSession "q3").2.2
      [("meta", PyVal.list []), ("data", PyVal.list [PyVal.int 1])]
      [PyVal.int 1] rfl (by decide) rfl rfl⟩

end McpClickhouse
